import Mathlib

/-!
Verification development for the `moleculer-go/metrics` repository
(file `prometheus.go`).

The source is a Moleculer service that exposes Prometheus metrics:

* `collectorFromType` turns one metric configuration entry (a
  `map[string]interface{}`) into a Prometheus collector;
* `createMetrics` reads the `metrics` field of the service settings and
  builds the name-to-collector registry;
* `traceSpanFinished` handles `metrics.trace.span.finish` events and
  updates the request counters and duration histograms;
* `updateCommonValues` handles topology events and re-sets the gauges
  from a gathered topology snapshot;
* the `Started` hook runs `createMetrics` and then serves the
  exposition endpoint.

The embedding below is shallow: Go `interface{}` values that the code
inspects are modelled by the inductive `GoVal`; Go maps are association
lists (`lookupAL` / `setAL`, assignment replaces an existing key);
a forced Go type assertion (`x.(T)`) that fails is a runtime panic,
modelled by `Except.error`; `float64` values are modelled by `Rat`
(the code never does float arithmetic on them, it only stores, counts
and observes them).
-/

namespace MoleculerGoMetrics

/-- Model of the Go `interface{}` values that `prometheus.go` inspects:
strings, ints, bools, floats, `[]string`, `[]float64` and
`map[string]interface{}`. -/
inductive GoVal where
  | str : String → GoVal
  | int : Int → GoVal
  | bool : Bool → GoVal
  | float : Rat → GoVal
  | strList : List String → GoVal
  | floatList : List Rat → GoVal
  | dict : List (String × GoVal) → GoVal

/-- A Go `map[string]interface{}` as an association list. -/
abbrev GoMap := List (String × GoVal)

/-- Lookup in a Go map: `m[k]` (first matching key). -/
def lookupAL {β : Type} : List (String × β) → String → Option β
  | [], _ => none
  | (k, v) :: rest, key => if key = k then some v else lookupAL rest key

/-- Assignment in a Go map: `m[k] = v` replaces the value of an existing
key and otherwise appends a new entry. -/
def setAL {β : Type} : List (String × β) → String → β → List (String × β)
  | [], key, val => [(key, val)]
  | (k, v) :: rest, key, val =>
      if k = key then (k, val) :: rest else (k, v) :: setAL rest key val

/-- A Go runtime panic reachable from the metrics code: a failed forced
type assertion (also covers the nil-interface case of a missing map
key), or `prometheus.MustRegister` being handed a nil collector. -/
inductive GoPanic where
  | typeAssertion : GoPanic
  | nilCollector : GoPanic
deriving DecidableEq

/-- A Prometheus label set (`prometheus.Labels`), in the order the Go
code writes the literal. -/
abbrev Labels := List (String × String)

/-- The state of one Prometheus collector, as far as this repository
mutates it.  Counters hold their count (`Inc` is the only mutation the
code uses), gauges hold the last `Set` value, histograms hold the list
of `Observe`d values together with the configured bucket boundaries
(`none` means the field was left unset, so the library default bucket
ladder `prometheus.DefBuckets` applies).  Each collector records the
`Name` and `Help` strings of its options. -/
inductive Collector where
  | counter (name help : String) (v : Nat)
  | counterVec (name help : String) (labelNames : List String) (f : Labels → Nat)
  | gauge (name help : String) (v : Rat)
  | gaugeVec (name help : String) (labelNames : List String) (f : Labels → Rat)
  | histogram (name help : String) (cfgBuckets : Option (List Rat)) (obs : List Rat)
  | histogramVec (name help : String) (labelNames : List String)
      (cfgBuckets : Option (List Rat)) (f : Labels → List Rat)

/-- The `collectors` map of `PrometheusService`: metric name to
collector.  The value side is `Option Collector` because Go lets the
code store a nil `prometheus.Collector` interface value (which
`collectorFromType` returns for an unrecognized metric type). -/
abbrev Registry := List (String × Option Collector)

/-- Reading `collectors[name]` and flattening the two Go notions of
"absent": a missing key yields a nil interface, exactly like a stored
nil collector. -/
def regGet (reg : Registry) (name : String) : Option Collector :=
  (lookupAL reg name).bind id

/-- The string parameter `params[key].(string)` read with a two-value
assertion: `some` exactly when the key is present with a string value. -/
def strParam (params : GoMap) (key : String) : Option String :=
  match lookupAL params key with
  | some (.str s) => some s
  | _ => none

/-- `labelNames, hasLabels := params["labelNames"].([]string)`:
`some` exactly when the field is present with type `[]string`
(a present empty list still yields `some []`). -/
def labelNamesParam (params : GoMap) : Option (List String) :=
  match lookupAL params "labelNames" with
  | some (.strList l) => some l
  | _ => none

/-- `buckets, hasBuckets := params["buckets"].([]float64)`. -/
def bucketsParam (params : GoMap) : Option (List Rat) :=
  match lookupAL params "buckets" with
  | some (.floatList l) => some l
  | _ => none

/-- Embedding of `collectorFromType` (prometheus.go lines 330-372).
The forced assertions `params["type"].(string)` and
`params["help"].(string)` panic when the field is absent or not a
string; the `labelNames` and `buckets` reads use the two-value form and
never panic.  The switch builds the Vec variant exactly when the
`labelNames` assertion succeeded, stores `buckets` in the histogram
options exactly when that assertion succeeded, and returns Go `nil`
(here `Option.none`) for an unrecognized metric type string. -/
def collectorFromType (metricName : String) (params : GoMap) :
    Except GoPanic (Option Collector) :=
  match strParam params "type" with
  | none => .error .typeAssertion
  | some metricType =>
    match strParam params "help" with
    | none => .error .typeAssertion
    | some help =>
      match metricType with
      | "Gauge" =>
          .ok (some (match labelNamesParam params with
            | some l => .gaugeVec metricName help l (fun _ => 0)
            | none => .gauge metricName help 0))
      | "Counter" =>
          .ok (some (match labelNamesParam params with
            | some l => .counterVec metricName help l (fun _ => 0)
            | none => .counter metricName help 0))
      | "Histogram" =>
          .ok (some (match labelNamesParam params with
            | some l => .histogramVec metricName help l (bucketsParam params) (fun _ => [])
            | none => .histogram metricName help (bucketsParam params) []))
      | _ => .ok none

/-- The loop body of `createMetrics` (lines 54-59): for each entry of
the `metrics` settings map, force-assert the value to a map (panic
otherwise), build the collector, store it in the `collectors` map, and
`prometheus.MustRegister` it.  `MustRegister` panics when handed the
nil collector that `collectorFromType` returns for an unrecognized
type (nil-interface method call inside `Register`). -/
def buildCollectors : GoMap → Registry → Except GoPanic Registry
  | [], reg => .ok reg
  | (name, v) :: rest, reg =>
    match v with
    | .dict params =>
        (collectorFromType name params).bind fun c =>
          match c with
          | none => .error .nilCollector
          | some _ => buildCollectors rest (setAL reg name c)
    | _ => .error .typeAssertion

/-- Embedding of `createMetrics` (lines 40-62).  Returns the resulting
`collectors` registry together with the `metricsCreated` flag.  When
the `metrics` settings field is missing, or present with a
non-`map[string]interface{}` type, the function only logs an error and
returns: the registry stays empty and the flag (and so the
initialization gate) is never set. -/
def createMetrics (settings : GoMap) : Except GoPanic (Registry × Bool) :=
  match lookupAL settings "metrics" with
  | none => .ok ([], false)
  | some v =>
    match v with
    | .dict metrics => (buildCollectors metrics []).map (fun reg => (reg, true))
    | _ => .ok ([], false)

/-- Outcome of the `Started` hook (lines 317-325): the registry and
gate flag left by `createMetrics`, and whether execution reached
`http.ListenAndServe` (serving the exposition endpoint). -/
structure StartResult where
  collectors : Registry
  metricsCreated : Bool
  serving : Bool

/-- Embedding of the `Started` hook: run `createMetrics` over the
service settings, read the `endpoint` setting with a forced string
assertion, and serve the exposition endpoint.  There is no abort path
between `createMetrics` and serving. -/
def startedHandler (settings : GoMap) : Except GoPanic StartResult := do
  let (reg, created) ← createMetrics settings
  match strParam settings "endpoint" with
  | some _ => .ok ⟨reg, created, true⟩
  | none => .error .typeAssertion

/-- Pointwise update of a label-partitioned collector: the Go side
mutates the child identified by one label set, every other child keeps
its value. -/
def updFn {α β : Type} [DecidableEq α] (f : α → β) (k : α) (v : β) : α → β :=
  fun x => if x = k then v else f x

/-- A `for ... range` loop that calls `vec.With(labels).Set(value)`
once per record. -/
def foldSet {α β γ : Type} [DecidableEq α]
    (key : γ → α) (val : γ → β) (f : α → β) (rs : List γ) : α → β :=
  rs.foldl (fun g r => updFn g (key r) (val r)) f

/-- The fields of a `metrics.trace.span.finish` payload that
`traceSpanFinished` reads: `service.name`, `action.name`, `nodeID`,
`duration`, and the optional `error` descriptor (with its `message`). -/
structure TraceEventPayload where
  service : String
  action : String
  nodeID : String
  duration : Rat
  err : Option String

/-- The `prometheus.Labels` literal used for `moleculer_req_total` and
`moleculer_req_duration_ms`. -/
def traceLabels (p : TraceEventPayload) : Labels :=
  [("action", p.action), ("service", p.service), ("nodeID", p.nodeID)]

/-- The `prometheus.Labels` literal used for
`moleculer_req_errors_total`. -/
def traceErrorLabels (p : TraceEventPayload) (msg : String) : Labels :=
  [("action", p.action), ("service", p.service), ("nodeID", p.nodeID),
   ("errorMessage", msg)]

/-- `collectors[name].(prometheus.Counter)`: panics unless the entry is
a live scalar counter (a missing key or stored nil is a nil interface,
and a Vec does not implement the scalar interface). -/
def asCounter : Option (Option Collector) → Except GoPanic (String × String × Nat)
  | some (some (.counter n h v)) => .ok (n, h, v)
  | _ => .error .typeAssertion

/-- `collectors[name].(*prometheus.CounterVec)`. -/
def asCounterVec :
    Option (Option Collector) →
    Except GoPanic (String × String × List String × (Labels → Nat))
  | some (some (.counterVec n h ln f)) => .ok (n, h, ln, f)
  | _ => .error .typeAssertion

/-- `collectors[name].(prometheus.Histogram)`. -/
def asHistogram :
    Option (Option Collector) →
    Except GoPanic (String × String × Option (List Rat) × List Rat)
  | some (some (.histogram n h b obs)) => .ok (n, h, b, obs)
  | _ => .error .typeAssertion

/-- `collectors[name].(*prometheus.HistogramVec)`. -/
def asHistogramVec :
    Option (Option Collector) →
    Except GoPanic (String × String × List String × Option (List Rat) × (Labels → List Rat))
  | some (some (.histogramVec n h ln b f)) => .ok (n, h, ln, b, f)
  | _ => .error .typeAssertion

/-- `collectors[name].(prometheus.Gauge)`. -/
def asGauge : Option (Option Collector) → Except GoPanic (String × String × Rat)
  | some (some (.gauge n h v)) => .ok (n, h, v)
  | _ => .error .typeAssertion

/-- `collectors[name].(*prometheus.GaugeVec)`. -/
def asGaugeVec :
    Option (Option Collector) →
    Except GoPanic (String × String × List String × (Labels → Rat))
  | some (some (.gaugeVec n h ln f)) => .ok (n, h, ln, f)
  | _ => .error .typeAssertion

/-- Embedding of the `traceSpanFinished` handler (lines 64-105).  Each
Go step reads a collector out of the map with a forced type assertion
and mutates the collector object; the pure model writes the mutated
collector back under the same key.  Note the handler consults neither
`metricsCreated` nor the `metricsCreatedChan` gate before touching the
collectors. -/
def traceSpanFinished (collectors : Registry) (p : TraceEventPayload) :
    Except GoPanic Registry := do
  let (n, h, v) ← asCounter (lookupAL collectors "moleculer_all_req_total")
  let collectors := setAL collectors "moleculer_all_req_total"
    (some (.counter n h (v + 1)))
  let (n, h, ln, f) ← asCounterVec (lookupAL collectors "moleculer_req_total")
  let collectors := setAL collectors "moleculer_req_total"
    (some (.counterVec n h ln (updFn f (traceLabels p) (f (traceLabels p) + 1))))
  let (n, h, b, obs) ← asHistogram (lookupAL collectors "moleculer_all_req_duration_ms")
  let collectors := setAL collectors "moleculer_all_req_duration_ms"
    (some (.histogram n h b (obs ++ [p.duration])))
  let (n, h, ln, b, f) ← asHistogramVec (lookupAL collectors "moleculer_req_duration_ms")
  let collectors := setAL collectors "moleculer_req_duration_ms"
    (some (.histogramVec n h ln b
      (updFn f (traceLabels p) (f (traceLabels p) ++ [p.duration]))))
  match p.err with
  | some msg => do
      let (n, h, v) ← asCounter (lookupAL collectors "moleculer_all_req_errors_total")
      let collectors := setAL collectors "moleculer_all_req_errors_total"
        (some (.counter n h (v + 1)))
      let (n, h, ln, f) ← asCounterVec (lookupAL collectors "moleculer_req_errors_total")
      .ok (setAL collectors "moleculer_req_errors_total"
        (some (.counterVec n h ln
          (updFn f (traceErrorLabels p msg) (f (traceErrorLabels p msg) + 1)))))
  | none => .ok collectors

/-- One record of an endpoints list; the code only takes its length. -/
abbrev EndpointRec := GoMap

/-- One record of the `$node.list` result, with the fields the handler
reads: `id`, `available`, `client.type`, `client.version`,
`client.langVersion`. -/
structure NodeRec where
  id : String
  available : Bool
  clientType : String
  clientVersion : String
  clientLangVersion : String

/-- One record of the `$node.services` result: `name`, `version` and
the `endpoints` list. -/
structure ServiceRec where
  name : String
  version : String
  endpoints : List EndpointRec

/-- One record of the `$node.actions` result. -/
structure ActionRec where
  name : String
  endpoints : List EndpointRec

/-- One record of the `$node.events` result: `name`, `group` and the
`endpoints` list. -/
structure EventRec where
  name : String
  group : String
  endpoints : List EndpointRec

/-- The four result lists delivered by the `MCall` fan-out gather, after
the payload parsing (`MapArray`, `Get`, type assertions) that the
handler performs on a fully gathered, well-typed snapshot. -/
structure TopologySnapshot where
  nodes : List NodeRec
  services : List ServiceRec
  actions : List ActionRec
  events : List EventRec

/-- Labels literal of the `moleculer_nodes` gauge. -/
def nodeLabels (n : NodeRec) : Labels :=
  [("nodeID", n.id), ("type", n.clientType), ("version", n.clientVersion),
   ("langVersion", n.clientLangVersion)]

/-- The value the handler sets for one node: 1 if available else 0. -/
def nodeValue (n : NodeRec) : Rat :=
  if n.available then 1 else 0

/-- Labels literal of the `moleculer_service_endpoints_total` gauge. -/
def serviceLabels (s : ServiceRec) : Labels :=
  [("service", s.name), ("version", s.version)]

/-- Labels literal of the `moleculer_action_endpoints_total` gauge. -/
def actionLabels (a : ActionRec) : Labels :=
  [("action", a.name)]

/-- Labels literal of the `moleculer_event_endpoints_total` gauge. -/
def eventLabels (e : EventRec) : Labels :=
  [("event", e.name), ("group", e.group)]

/-- Embedding of the gauge-update section of `updateCommonValues`
(lines 154-216), applied to the gathered snapshot.  The handler first
takes `updateMutex`, waits on the initialization gate when
`metricsCreated` is still false, and blocks on the `MCall` gather
(lines 110-152); those synchronization steps precede this pure update
section, which sets the four scalar gauges to the list lengths and
loops over each list calling `With(labels).Set(value)`. -/
def updateCommonValues (collectors : Registry) (results : TopologySnapshot) :
    Except GoPanic Registry := do
  let (n, h, _) ← asGauge (lookupAL collectors "moleculer_nodes_total")
  let collectors := setAL collectors "moleculer_nodes_total"
    (some (.gauge n h (results.nodes.length : Rat)))
  let (n, h, ln, f) ← asGaugeVec (lookupAL collectors "moleculer_nodes")
  let collectors := setAL collectors "moleculer_nodes"
    (some (.gaugeVec n h ln (foldSet nodeLabels nodeValue f results.nodes)))
  let (n, h, _) ← asGauge (lookupAL collectors "moleculer_services_total")
  let collectors := setAL collectors "moleculer_services_total"
    (some (.gauge n h (results.services.length : Rat)))
  let (n, h, ln, f) ← asGaugeVec (lookupAL collectors "moleculer_service_endpoints_total")
  let collectors := setAL collectors "moleculer_service_endpoints_total"
    (some (.gaugeVec n h ln
      (foldSet serviceLabels (fun s => (s.endpoints.length : Rat)) f results.services)))
  let (n, h, _) ← asGauge (lookupAL collectors "moleculer_actions_total")
  let collectors := setAL collectors "moleculer_actions_total"
    (some (.gauge n h (results.actions.length : Rat)))
  let (n, h, ln, f) ← asGaugeVec (lookupAL collectors "moleculer_action_endpoints_total")
  let collectors := setAL collectors "moleculer_action_endpoints_total"
    (some (.gaugeVec n h ln
      (foldSet actionLabels (fun a => (a.endpoints.length : Rat)) f results.actions)))
  let (n, h, _) ← asGauge (lookupAL collectors "moleculer_events_total")
  let collectors := setAL collectors "moleculer_events_total"
    (some (.gauge n h (results.events.length : Rat)))
  let (n, h, ln, f) ← asGaugeVec (lookupAL collectors "moleculer_event_endpoints_total")
  .ok (setAL collectors "moleculer_event_endpoints_total"
    (some (.gaugeVec n h ln
      (foldSet eventLabels (fun e => (e.endpoints.length : Rat)) f results.events))))

/-- The `Settings` literal of `PrometheusService` (lines 222-293). -/
def defaultSettings : GoMap :=
  [("port", .int 3030),
   ("endpoint", .str "/metrics"),
   ("collectDefaultMetrics", .bool true),
   ("timeout", .int (10 * 1000)),
   ("metrics", .dict
     [("moleculer_nodes_total", .dict
        [("type", .str "Gauge"),
         ("help", .str "Moleculer nodes count")]),
      ("moleculer_services_total", .dict
        [("type", .str "Gauge"),
         ("help", .str "Moleculer services count")]),
      ("moleculer_actions_total", .dict
        [("type", .str "Gauge"),
         ("help", .str "Moleculer actions count")]),
      ("moleculer_events_total", .dict
        [("type", .str "Gauge"),
         ("help", .str "Moleculer events subscriptions")]),
      ("moleculer_nodes", .dict
        [("type", .str "Gauge"),
         ("labelNames", .strList ["nodeID", "type", "version", "langVersion"]),
         ("help", .str "Moleculer node list")]),
      ("moleculer_action_endpoints_total", .dict
        [("type", .str "Gauge"),
         ("labelNames", .strList ["action"]),
         ("help", .str "Moleculer action endpoints")]),
      ("moleculer_service_endpoints_total", .dict
        [("type", .str "Gauge"),
         ("labelNames", .strList ["service", "version"]),
         ("help", .str "Moleculer service endpoints")]),
      ("moleculer_event_endpoints_total", .dict
        [("type", .str "Gauge"),
         ("labelNames", .strList ["event", "group"]),
         ("help", .str "Moleculer event endpoints")]),
      ("moleculer_all_req_total", .dict
        [("type", .str "Counter"),
         ("help", .str "Moleculer all actions request count")]),
      ("moleculer_req_total", .dict
        [("type", .str "Counter"),
         ("labelNames", .strList ["action", "service", "nodeID"]),
         ("help", .str "Moleculer action request count")]),
      ("moleculer_all_req_errors_total", .dict
        [("type", .str "Counter"),
         ("help", .str "Moleculer all request error count")]),
      ("moleculer_req_errors_total", .dict
        [("type", .str "Counter"),
         ("labelNames", .strList ["action", "service", "nodeID", "errorMessage"]),
         ("help", .str "Moleculer request error count")]),
      ("moleculer_all_req_duration_ms", .dict
        [("type", .str "Histogram"),
         ("help", .str "Moleculer all request durations"),
         ("buckets", .floatList
           [0.001, 0.01, 0.1, 0.5, 1.0, 10.0, 100.0, 300.0, 500.0, 700.0,
            1000.0, 5000.0, 10000.0])]),
      ("moleculer_req_duration_ms", .dict
        [("type", .str "Histogram"),
         ("labelNames", .strList ["action", "service", "nodeID"]),
         ("help", .str "Moleculer request durations")])])]

/-- Validity of one metric configuration entry, as the spec's notion of
a valid MetricSpec reads on the Go parameter map: `type` is present as
one of the three recognized kind strings and `help` is present as a
string. -/
def validSpec (params : GoMap) : Bool :=
  match strParam params "type", strParam params "help" with
  | some t, some _ => t = "Gauge" || t = "Counter" || t = "Histogram"
  | _, _ => false

/-- Does this Go value have the dynamic type `map[string]interface{}`? -/
def isDict : GoVal → Bool
  | .dict _ => true
  | _ => false

/-- Is this collector the label-partitioned (Vec) variant? -/
def isVec : Collector → Bool
  | .counterVec .. => true
  | .gaugeVec .. => true
  | .histogramVec .. => true
  | _ => false

/-- Configured bucket boundaries of a histogram collector (`none` for
the other kinds, and for a histogram whose options left the field to
the library default ladder). -/
def cfgBucketsOf : Collector → Option (List Rat)
  | .histogram _ _ b _ => b
  | .histogramVec _ _ _ b _ => b
  | _ => none

/-- Value of a scalar gauge stored under `name`. -/
def gaugeValue (reg : Registry) (name : String) : Option Rat :=
  match regGet reg name with
  | some (.gauge _ _ v) => some v
  | _ => none

/-- Value of one label set of a gauge Vec stored under `name`. -/
def gaugeVecValue (reg : Registry) (name : String) (l : Labels) : Option Rat :=
  match regGet reg name with
  | some (.gaugeVec _ _ _ f) => some (f l)
  | _ => none

/-- Value of a scalar counter stored under `name`. -/
def counterValue (reg : Registry) (name : String) : Option Nat :=
  match regGet reg name with
  | some (.counter _ _ v) => some v
  | _ => none

/-- Value of one label set of a counter Vec stored under `name`. -/
def counterVecValue (reg : Registry) (name : String) (l : Labels) : Option Nat :=
  match regGet reg name with
  | some (.counterVec _ _ _ f) => some (f l)
  | _ => none

/-- Observations of a scalar histogram stored under `name`. -/
def histogramObs (reg : Registry) (name : String) : Option (List Rat) :=
  match regGet reg name with
  | some (.histogram _ _ _ obs) => some obs
  | _ => none

/-- Observations of one label set of a histogram Vec stored under
`name`. -/
def histogramVecObs (reg : Registry) (name : String) (l : Labels) :
    Option (List Rat) :=
  match regGet reg name with
  | some (.histogramVec _ _ _ _ f) => some (f l)
  | _ => none

/-- The registry produced by one run of the gauge-update section of
`updateCommonValues`, given the collectors found under the eight
topology metric names. -/
def topoPost (reg : Registry) (snap : TopologySnapshot)
    (n1 h1 : String) (n2 h2 : String) (ln2 : List String) (f2 : Labels → Rat)
    (n3 h3 : String) (n4 h4 : String) (ln4 : List String) (f4 : Labels → Rat)
    (n5 h5 : String) (n6 h6 : String) (ln6 : List String) (f6 : Labels → Rat)
    (n7 h7 : String) (n8 h8 : String) (ln8 : List String) (f8 : Labels → Rat) :
    Registry :=
  setAL (setAL (setAL (setAL (setAL (setAL (setAL (setAL reg
    "moleculer_nodes_total" (some (.gauge n1 h1 (snap.nodes.length : Rat))))
    "moleculer_nodes" (some (.gaugeVec n2 h2 ln2
      (foldSet nodeLabels nodeValue f2 snap.nodes))))
    "moleculer_services_total" (some (.gauge n3 h3 (snap.services.length : Rat))))
    "moleculer_service_endpoints_total" (some (.gaugeVec n4 h4 ln4
      (foldSet serviceLabels (fun s => (s.endpoints.length : Rat)) f4 snap.services))))
    "moleculer_actions_total" (some (.gauge n5 h5 (snap.actions.length : Rat))))
    "moleculer_action_endpoints_total" (some (.gaugeVec n6 h6 ln6
      (foldSet actionLabels (fun a => (a.endpoints.length : Rat)) f6 snap.actions))))
    "moleculer_events_total" (some (.gauge n7 h7 (snap.events.length : Rat))))
    "moleculer_event_endpoints_total" (some (.gaugeVec n8 h8 ln8
      (foldSet eventLabels (fun e => (e.endpoints.length : Rat)) f8 snap.events)))

/-- A concrete registry holding the six request collectors, used to
exercise the trace handler on one event. -/
def traceReg : Registry :=
  [("moleculer_all_req_total", some (.counter "a" "b" 3)),
   ("moleculer_req_total",
     some (.counterVec "c" "d" ["action", "service", "nodeID"] (fun _ => 1))),
   ("moleculer_all_req_duration_ms", some (.histogram "e" "f" none [2])),
   ("moleculer_req_duration_ms",
     some (.histogramVec "g" "i" ["action", "service", "nodeID"] none (fun _ => []))),
   ("moleculer_all_req_errors_total", some (.counter "j" "k" 0)),
   ("moleculer_req_errors_total",
     some (.counterVec "l" "m" ["action", "service", "nodeID", "errorMessage"]
       (fun _ => 0)))]

/-- A concrete trace event: action `start` of service `music` on node
`node1`, duration 12.5 ms, carrying an error descriptor. -/
def traceEvent : TraceEventPayload :=
  ⟨"music", "start", "node1", 12.5, some "boom"⟩

/-- A concrete registry holding the eight topology collectors. -/
def topoReg : Registry :=
  [("moleculer_nodes_total", some (.gauge "a" "b" 0)),
   ("moleculer_nodes",
     some (.gaugeVec "c" "d" ["nodeID", "type", "version", "langVersion"] (fun _ => 0))),
   ("moleculer_services_total", some (.gauge "e" "f" 0)),
   ("moleculer_service_endpoints_total",
     some (.gaugeVec "g" "i" ["service", "version"] (fun _ => 0))),
   ("moleculer_actions_total", some (.gauge "j" "k" 0)),
   ("moleculer_action_endpoints_total",
     some (.gaugeVec "l" "m" ["action"] (fun _ => 0))),
   ("moleculer_events_total", some (.gauge "o" "p" 0)),
   ("moleculer_event_endpoints_total",
     some (.gaugeVec "q" "r" ["event", "group"] (fun _ => 0)))]

/-- A concrete gathered snapshot: two nodes (one available), one
service with three endpoints, no actions, one event with two
endpoints. -/
def topoSnap : TopologySnapshot :=
  { nodes := [⟨"n1", true, "go", "0.1", "1.12"⟩, ⟨"n2", false, "go", "0.1", "1.12"⟩],
    services := [⟨"music", "1", [[], [], []]⟩],
    actions := [],
    events := [⟨"rings", "music", [[], []]⟩] }

/-- A concrete valid metric configuration with two uniquely named
specs. -/
def sampleSpecs : List (String × GoMap) :=
  [("metric_one", [("type", .str "Counter"), ("help", .str "h1")]),
   ("metric_two", [("type", .str "Histogram"), ("help", .str "h2"),
     ("labelNames", .strList ["x"])])]

/-! ### Assoc-list and fold lemmas -/

theorem lookupAL_setAL {β : Type} (reg : List (String × β)) (k k' : String) (v : β) :
    lookupAL (setAL reg k v) k' = if k' = k then some v else lookupAL reg k' := by
  induction reg with
  | nil => simp [lookupAL, setAL]
  | cons hd tl ih =>
      obtain ⟨a, b⟩ := hd
      by_cases hak : a = k <;> by_cases hk : k' = a <;>
        simp_all [setAL, lookupAL]

theorem setAL_of_lookup_eq {β : Type} (reg : List (String × β)) (k : String) (v : β)
    (h : lookupAL reg k = some v) : setAL reg k v = reg := by
  induction reg with
  | nil => simp [lookupAL] at h
  | cons hd tl ih =>
      obtain ⟨a, b⟩ := hd
      by_cases hk : k = a
      · subst hk
        have hbv : b = v := by simpa [lookupAL] using h
        subst hbv
        simp [setAL]
      · have hak : ¬ a = k := fun hh => hk hh.symm
        have htl : lookupAL tl k = some v := by simpa [lookupAL, hk] using h
        simp [setAL, hak, ih htl]

theorem foldSet_not_mem {α β γ : Type} [DecidableEq α]
    (key : γ → α) (val : γ → β) (f : α → β) (rs : List γ) (x : α)
    (h : ∀ r ∈ rs, key r ≠ x) : foldSet key val f rs x = f x := by
  induction rs generalizing f with
  | nil => rfl
  | cons a rs ih =>
      have ha : key a ≠ x := h a (List.mem_cons_self a rs)
      have h2 := ih (updFn f (key a) (val a)) (fun r hr => h r (List.mem_cons_of_mem a hr))
      calc foldSet key val f (a :: rs) x
          = foldSet key val (updFn f (key a) (val a)) rs x := rfl
        _ = updFn f (key a) (val a) x := h2
        _ = f x := if_neg fun hx => ha hx.symm

theorem foldSet_pairwise_mem {α β γ : Type} [DecidableEq α]
    (key : γ → α) (val : γ → β) (f : α → β) (rs : List γ)
    (hp : rs.Pairwise (fun r r' => key r ≠ key r')) (r : γ) (hr : r ∈ rs) :
    foldSet key val f rs (key r) = val r := by
  induction rs generalizing f with
  | nil => exact absurd hr (List.not_mem_nil r)
  | cons a rs ih =>
      rcases List.mem_cons.mp hr with h | h
      · subst h
        have hne : ∀ s ∈ rs, key s ≠ key r := by
          intro s hs
          exact fun hk => (List.pairwise_cons.mp hp).1 s hs hk.symm
        have h2 := foldSet_not_mem key val (updFn f (key r) (val r)) rs (key r) hne
        calc foldSet key val f (r :: rs) (key r)
            = foldSet key val (updFn f (key r) (val r)) rs (key r) := rfl
          _ = updFn f (key r) (val r) (key r) := h2
          _ = val r := if_pos rfl
      · exact ih (updFn f (key a) (val a)) (List.pairwise_cons.mp hp).2 h

theorem foldSet_congr {α β γ : Type} [DecidableEq α]
    (key : γ → α) (val : γ → β) (f g : α → β) (rs : List γ)
    (h : ∀ y, (∀ r ∈ rs, key r ≠ y) → f y = g y) :
    ∀ x, foldSet key val f rs x = foldSet key val g rs x := by
  induction rs generalizing f g with
  | nil => exact fun x => h x (by simp)
  | cons a rs ih =>
      intro x
      show foldSet key val (updFn f (key a) (val a)) rs x
          = foldSet key val (updFn g (key a) (val a)) rs x
      refine ih _ _ (fun y hy => ?_) x
      by_cases hya : y = key a
      · simp [updFn, hya]
      · simp only [updFn, if_neg hya]
        refine h y (fun r hr => ?_)
        rcases List.mem_cons.mp hr with h1 | h1
        · subst h1
          exact fun hk => hya hk.symm
        · exact hy r h1

theorem foldSet_idem {α β γ : Type} [DecidableEq α]
    (key : γ → α) (val : γ → β) (f : α → β) (rs : List γ) :
    foldSet key val (foldSet key val f rs) rs = foldSet key val f rs := by
  funext x
  exact foldSet_congr key val (foldSet key val f rs) f rs
    (fun y hy => foldSet_not_mem key val f rs y hy) x

theorem updateCommonValues_run (reg : Registry) (snap : TopologySnapshot)
    (n1 h1 : String) (v1 : Rat)
    (n2 h2 : String) (ln2 : List String) (f2 : Labels → Rat)
    (n3 h3 : String) (v3 : Rat)
    (n4 h4 : String) (ln4 : List String) (f4 : Labels → Rat)
    (n5 h5 : String) (v5 : Rat)
    (n6 h6 : String) (ln6 : List String) (f6 : Labels → Rat)
    (n7 h7 : String) (v7 : Rat)
    (n8 h8 : String) (ln8 : List String) (f8 : Labels → Rat)
    (e1 : lookupAL reg "moleculer_nodes_total" = some (some (.gauge n1 h1 v1)))
    (e2 : lookupAL reg "moleculer_nodes" = some (some (.gaugeVec n2 h2 ln2 f2)))
    (e3 : lookupAL reg "moleculer_services_total" = some (some (.gauge n3 h3 v3)))
    (e4 : lookupAL reg "moleculer_service_endpoints_total" =
      some (some (.gaugeVec n4 h4 ln4 f4)))
    (e5 : lookupAL reg "moleculer_actions_total" = some (some (.gauge n5 h5 v5)))
    (e6 : lookupAL reg "moleculer_action_endpoints_total" =
      some (some (.gaugeVec n6 h6 ln6 f6)))
    (e7 : lookupAL reg "moleculer_events_total" = some (some (.gauge n7 h7 v7)))
    (e8 : lookupAL reg "moleculer_event_endpoints_total" =
      some (some (.gaugeVec n8 h8 ln8 f8))) :
    updateCommonValues reg snap = .ok
      (topoPost reg snap n1 h1 n2 h2 ln2 f2 n3 h3 n4 h4 ln4 f4
        n5 h5 n6 h6 ln6 f6 n7 h7 n8 h8 ln8 f8) := by
  simp only [updateCommonValues, topoPost, lookupAL_setAL,
    e1, e2, e3, e4, e5, e6, e7, e8,
    asGauge, asGaugeVec, Bind.bind, Except.bind]
  simp

theorem collectorFromType_of_valid (n : String) (p : GoMap)
    (hv : validSpec p = true) : ∃ c, collectorFromType n p = .ok (some c) := by
  unfold validSpec at hv
  cases ht : strParam p "type" with
  | none => rw [ht] at hv; simp at hv
  | some t =>
      cases hh : strParam p "help" with
      | none => rw [ht, hh] at hv; simp at hv
      | some s =>
          rw [ht, hh] at hv
          simp only [Bool.or_eq_true, decide_eq_true_eq] at hv
          rcases hv with (h | h) | h <;> subst h <;> cases hlab : labelNamesParam p
          · exact ⟨.gauge n s 0, by simp [collectorFromType, ht, hh, hlab]⟩
          · rename_i l
            exact ⟨.gaugeVec n s l (fun _ => 0),
              by simp [collectorFromType, ht, hh, hlab]⟩
          · exact ⟨.counter n s 0, by simp [collectorFromType, ht, hh, hlab]⟩
          · rename_i l
            exact ⟨.counterVec n s l (fun _ => 0),
              by simp [collectorFromType, ht, hh, hlab]⟩
          · exact ⟨.histogram n s (bucketsParam p) [],
              by simp [collectorFromType, ht, hh, hlab]⟩
          · rename_i l
            exact ⟨.histogramVec n s l (bucketsParam p) (fun _ => []),
              by simp [collectorFromType, ht, hh, hlab]⟩

theorem buildCollectors_spec (ms : List (String × GoMap)) (reg : Registry)
    (hv : ∀ pr ∈ ms, validSpec pr.2 = true) :
    ∃ reg', buildCollectors (ms.map fun pr => (pr.1, GoVal.dict pr.2)) reg = .ok reg' ∧
      (∀ name, (regGet reg' name).isSome ↔
        (name ∈ ms.map Prod.fst ∨ (regGet reg name).isSome)) ∧
      (∀ name, name ∉ ms.map Prod.fst → regGet reg' name = regGet reg name) ∧
      ((ms.map Prod.fst).Nodup →
        ∀ pr ∈ ms, ∃ c, collectorFromType pr.1 pr.2 = .ok (some c) ∧
          regGet reg' pr.1 = some c) := by
  induction ms generalizing reg with
  | nil =>
      exact ⟨reg, rfl, by simp, by simp, by simp⟩
  | cons pr ms ih =>
      obtain ⟨n, p⟩ := pr
      obtain ⟨c0, hc0⟩ := collectorFromType_of_valid n p
        (hv (n, p) (List.mem_cons_self _ _))
      obtain ⟨reg', hrun, hiff, hpres, hspec⟩ :=
        ih (setAL reg n (some c0)) (fun q hq => hv q (List.mem_cons_of_mem _ hq))
      refine ⟨reg', ?_, ?_, ?_, ?_⟩
      · simp only [List.map_cons, buildCollectors, hc0, Except.bind, hrun]
      · intro name
        rw [hiff name]
        by_cases hn : name = n
        · subst hn
          simp [regGet, lookupAL_setAL, Option.bind]
        · simp [regGet, lookupAL_setAL, hn]
      · intro name hname
        have hn : name ≠ n := by
          intro h
          exact hname (by simp [h])
        have hnot : name ∉ ms.map Prod.fst := by
          intro h
          exact hname (by simp [h])
        rw [hpres name hnot]
        simp [regGet, lookupAL_setAL, hn]
      · intro hnd q hq
        have hnd' : (ms.map Prod.fst).Nodup := by
          simpa using hnd.of_cons
        rcases List.mem_cons.mp hq with h | h
        · subst h
          have hcons : (n :: ms.map Prod.fst).Nodup := by simpa using hnd
          have hnin : n ∉ ms.map Prod.fst := (List.nodup_cons.mp hcons).1
          refine ⟨c0, hc0, ?_⟩
          rw [hpres n hnin]
          simp [regGet, lookupAL_setAL, Option.bind]
        · exact hspec hnd' q h

/-! ### Claim theorems -/

/-- C10: in the default `Settings` block, `moleculer_all_req_duration_ms`
is built as a scalar (unlabeled) histogram whose options carry the
explicit bucket boundaries
`[0.001, 0.01, 0.1, 0.5, 1, 10, 100, 300, 500, 700, 1000, 5000, 10000]`,
while `moleculer_req_duration_ms` is built as a labeled histogram whose
options leave the bucket field unset (`none`), so the library default
bucket ladder applies to it. -/
theorem defaultSettings_histogram_buckets :
    ∃ reg, createMetrics defaultSettings = .ok (reg, true) ∧
      regGet reg "moleculer_all_req_duration_ms" =
        some (.histogram "moleculer_all_req_duration_ms"
          "Moleculer all request durations"
          (some [0.001, 0.01, 0.1, 0.5, 1.0, 10.0, 100.0, 300.0, 500.0, 700.0,
                 1000.0, 5000.0, 10000.0]) []) ∧
      regGet reg "moleculer_req_duration_ms" =
        some (.histogramVec "moleculer_req_duration_ms"
          "Moleculer request durations"
          ["action", "service", "nodeID"] none (fun _ => [])) := by
  exact ⟨_, rfl, rfl, rfl⟩

/-- C4 (failing input): `traceSpanFinished` does not wait on the
initialization gate.  A `metrics.trace.span.finish` event handled while
the registry is still empty (before `createMetrics` has run) hits the
forced type assertion `collectors["moleculer_all_req_total"].(prometheus.Counter)`
on a nil interface and panics instead of blocking, unlike
`updateCommonValues`, which checks `metricsCreated` and waits on
`metricsCreatedChan` first. -/
theorem traceSpanFinished_empty_registry_panics :
    traceSpanFinished [] ⟨"music", "start", "node1", 5, none⟩ =
      .error .typeAssertion := rfl

/-- C5 (counterexample): with the `metrics` settings field missing, and
also with it present at a wrong type, the `Started` hook does not halt:
`createMetrics` returns after logging, the registry stays empty, the
gate flag stays false, and execution reaches `http.ListenAndServe`
(the exposition endpoint is served). -/
theorem startedHandler_serves_without_metrics :
    startedHandler [("port", .int 3030), ("endpoint", .str "/metrics")] =
      .ok ⟨[], false, true⟩ ∧
    startedHandler [("metrics", .str "oops"), ("endpoint", .str "/metrics")] =
      .ok ⟨[], false, true⟩ := ⟨rfl, rfl⟩

/-- C5 (amended): whenever the `metrics` settings field is missing or
is present with a non-map type, `createMetrics` returns without
creating any collector and without setting the gate flag, and the
`Started` hook goes on to serve the exposition endpoint with the empty
registry — startup neither halts nor fails. -/
theorem startedHandler_missing_metrics (settings : GoMap)
    (hm : ∀ v, lookupAL settings "metrics" = some v → isDict v = false)
    (he : ∃ e, strParam settings "endpoint" = some e) :
    startedHandler settings = .ok ⟨[], false, true⟩ := by
  obtain ⟨e, he⟩ := he
  cases hmv : lookupAL settings "metrics" with
  | none => simp [startedHandler, createMetrics, hmv, he, Bind.bind, Except.bind]
  | some v =>
      have hv := hm v hmv
      cases v <;>
        simp_all [startedHandler, createMetrics, isDict, he, Bind.bind, Except.bind]

/-- Witness for the amended C5 at concrete settings without a
`metrics` field. -/
theorem startedHandler_missing_metrics_witness :
    (∀ v, lookupAL [("port", GoVal.int 3030), ("endpoint", GoVal.str "/metrics")]
        "metrics" = some v → isDict v = false) ∧
    startedHandler [("port", GoVal.int 3030), ("endpoint", GoVal.str "/metrics")] =
      .ok ⟨[], false, true⟩ := by
  constructor
  · intro v hv
    exact absurd hv (by simp [lookupAL])
  · exact startedHandler_missing_metrics _
      (fun v hv => absurd hv (by simp [lookupAL])) ⟨"/metrics", rfl⟩

/-- C7 (counterexample): for a spec whose type string is the
unrecognized `"Summary"` (with `help` present), `collectorFromType`
does not fail with any configuration error — it returns Go `nil`
(`Option.none`) — and `createMetrics` then stores that nil in the
registry and panics inside `prometheus.MustRegister`, so startup
crashes with a panic rather than reporting a `ConfigurationError`. -/
theorem collectorFromType_unknown_kind_no_error :
    collectorFromType "m" [("type", .str "Summary"), ("help", .str "h")] =
      .ok none ∧
    createMetrics [("metrics", .dict
        [("m", .dict [("type", .str "Summary"), ("help", .str "h")])])] =
      .error .nilCollector := ⟨rfl, rfl⟩

/-- C7 (amended): `collectorFromType` never produces a configuration
error value.  When the type string is present but unrecognized it
returns nil without error provided `help` is a present string, and it
panics on the forced `params["help"].(string)` assertion when `help`
is absent or mis-typed. -/
theorem collectorFromType_no_config_error (n : String) (p : GoMap) (t : String)
    (ht : strParam p "type" = some t)
    (hk : t ≠ "Gauge" ∧ t ≠ "Counter" ∧ t ≠ "Histogram") :
    (∀ s, strParam p "help" = some s → collectorFromType n p = .ok none) ∧
    (strParam p "help" = none → collectorFromType n p = .error .typeAssertion) := by
  obtain ⟨h1, h2, h3⟩ := hk
  constructor
  · intro s hs
    simp [collectorFromType, ht, hs, h1, h2, h3]
  · intro hn
    simp [collectorFromType, ht, hn]

/-- Witness for the amended C7 at a concrete unrecognized-kind spec. -/
theorem collectorFromType_no_config_error_witness :
    strParam [("type", GoVal.str "Summary"), ("help", GoVal.str "h")] "type" =
      some "Summary" ∧
    collectorFromType "m" [("type", GoVal.str "Summary"), ("help", GoVal.str "h")] =
      .ok none :=
  ⟨rfl,
   (collectorFromType_no_config_error "m"
     [("type", GoVal.str "Summary"), ("help", GoVal.str "h")] "Summary" rfl
     (by decide)).1 "h" rfl⟩

/-- C8 (counterexample): a Counter spec whose `labelNames` field is
present but empty (`[]string{}`) yields the label-partitioned
`CounterVec` variant, not the scalar one: the code branches on the
success of the `[]string` type assertion, not on non-emptiness. -/
theorem collectorFromType_empty_labelNames_vec :
    collectorFromType "m"
      [("type", .str "Counter"), ("help", .str "h"), ("labelNames", .strList [])] =
      .ok (some (.counterVec "m" "h" [] (fun _ => 0))) ∧
    isVec (.counterVec "m" "h" [] (fun _ => 0)) = true := ⟨rfl, rfl⟩

/-- C8 (amended): for a recognized kind with `type` and `help` present
as strings, `collectorFromType` produces the Vec variant exactly when
the `labelNames` field is present with type `[]string` (even when that
list is empty), and the scalar variant otherwise; for a Histogram spec
the configured buckets equal the `buckets` field verbatim when it is
present with type `[]float64`, and are left to the library default
ladder (`none`) otherwise. -/
theorem collectorFromType_variant_selection (n : String) (p : GoMap) (t hs : String)
    (ht : strParam p "type" = some t)
    (hh : strParam p "help" = some hs)
    (hk : t = "Gauge" ∨ t = "Counter" ∨ t = "Histogram") :
    ∃ c, collectorFromType n p = .ok (some c) ∧
      (isVec c = true ↔ (labelNamesParam p).isSome) ∧
      (t = "Histogram" → cfgBucketsOf c = bucketsParam p) := by
  rcases hk with hk | hk | hk <;> subst hk <;> cases hlab : labelNamesParam p
  · exact ⟨.gauge n hs 0, by simp [collectorFromType, ht, hh, hlab],
      by simp [isVec, hlab], by simp⟩
  · rename_i l
    exact ⟨.gaugeVec n hs l (fun _ => 0), by simp [collectorFromType, ht, hh, hlab],
      by simp [isVec, hlab], by simp⟩
  · exact ⟨.counter n hs 0, by simp [collectorFromType, ht, hh, hlab],
      by simp [isVec, hlab], by simp⟩
  · rename_i l
    exact ⟨.counterVec n hs l (fun _ => 0), by simp [collectorFromType, ht, hh, hlab],
      by simp [isVec, hlab], by simp⟩
  · exact ⟨.histogram n hs (bucketsParam p) [], by simp [collectorFromType, ht, hh, hlab],
      by simp [isVec, hlab], fun _ => by simp [cfgBucketsOf]⟩
  · rename_i l
    exact ⟨.histogramVec n hs l (bucketsParam p) (fun _ => []),
      by simp [collectorFromType, ht, hh, hlab],
      by simp [isVec, hlab], fun _ => by simp [cfgBucketsOf]⟩

/-- Witness for the amended C8 at a concrete labeled Histogram spec
with explicit buckets. -/
theorem collectorFromType_variant_selection_witness :
    strParam [("type", GoVal.str "Histogram"), ("help", GoVal.str "hh"),
        ("labelNames", GoVal.strList ["a"]),
        ("buckets", GoVal.floatList [1, 2])] "type" = some "Histogram" ∧
    (∃ c, collectorFromType "mx"
        [("type", GoVal.str "Histogram"), ("help", GoVal.str "hh"),
         ("labelNames", GoVal.strList ["a"]),
         ("buckets", GoVal.floatList [1, 2])] = .ok (some c) ∧
      (isVec c = true ↔ (labelNamesParam
        [("type", GoVal.str "Histogram"), ("help", GoVal.str "hh"),
         ("labelNames", GoVal.strList ["a"]),
         ("buckets", GoVal.floatList [1, 2])]).isSome) ∧
      ("Histogram" = "Histogram" → cfgBucketsOf c = bucketsParam
        [("type", GoVal.str "Histogram"), ("help", GoVal.str "hh"),
         ("labelNames", GoVal.strList ["a"]),
         ("buckets", GoVal.floatList [1, 2])])) :=
  ⟨rfl, collectorFromType_variant_selection "mx" _ "Histogram" "hh" rfl rfl
    (Or.inr (Or.inr rfl))⟩

/-- C1: for every trace-span-finished event handled against a registry
holding the six request collectors with their configured kinds,
`traceSpanFinished` increments `moleculer_all_req_total` by 1,
increments `moleculer_req_total` at the (action, service, nodeID)
label set by 1 (leaving every other label set unchanged), observes the
event's duration into `moleculer_all_req_duration_ms` and into
`moleculer_req_duration_ms` at that label set, and exactly when the
payload carries an error descriptor it additionally increments
`moleculer_all_req_errors_total` and `moleculer_req_errors_total` at
the (action, service, nodeID, errorMessage) label set by 1; without an
error both error counters are untouched while the base updates still
happen. -/
theorem traceSpanFinished_updates (reg : Registry) (p : TraceEventPayload)
    (n1 h1 : String) (v1 : Nat)
    (n2 h2 : String) (ln2 : List String) (f2 : Labels → Nat)
    (n3 h3 : String) (b3 : Option (List Rat)) (obs3 : List Rat)
    (n4 h4 : String) (ln4 : List String) (b4 : Option (List Rat)) (f4 : Labels → List Rat)
    (n5 h5 : String) (v5 : Nat)
    (n6 h6 : String) (ln6 : List String) (f6 : Labels → Nat)
    (e1 : lookupAL reg "moleculer_all_req_total" = some (some (.counter n1 h1 v1)))
    (e2 : lookupAL reg "moleculer_req_total" = some (some (.counterVec n2 h2 ln2 f2)))
    (e3 : lookupAL reg "moleculer_all_req_duration_ms" =
      some (some (.histogram n3 h3 b3 obs3)))
    (e4 : lookupAL reg "moleculer_req_duration_ms" =
      some (some (.histogramVec n4 h4 ln4 b4 f4)))
    (e5 : lookupAL reg "moleculer_all_req_errors_total" =
      some (some (.counter n5 h5 v5)))
    (e6 : lookupAL reg "moleculer_req_errors_total" =
      some (some (.counterVec n6 h6 ln6 f6))) :
    ∃ reg', traceSpanFinished reg p = .ok reg' ∧
      counterValue reg' "moleculer_all_req_total" = some (v1 + 1) ∧
      counterVecValue reg' "moleculer_req_total" (traceLabels p) =
        some (f2 (traceLabels p) + 1) ∧
      (∀ l, l ≠ traceLabels p →
        counterVecValue reg' "moleculer_req_total" l = some (f2 l)) ∧
      histogramObs reg' "moleculer_all_req_duration_ms" =
        some (obs3 ++ [p.duration]) ∧
      histogramVecObs reg' "moleculer_req_duration_ms" (traceLabels p) =
        some (f4 (traceLabels p) ++ [p.duration]) ∧
      (match p.err with
       | some msg =>
           counterValue reg' "moleculer_all_req_errors_total" = some (v5 + 1) ∧
           counterVecValue reg' "moleculer_req_errors_total"
             (traceErrorLabels p msg) = some (f6 (traceErrorLabels p msg) + 1)
       | none =>
           counterValue reg' "moleculer_all_req_errors_total" = some v5 ∧
           ∀ l, counterVecValue reg' "moleculer_req_errors_total" l = some (f6 l)) := by
  cases herr : p.err with
  | none =>
      simp only [herr]
      refine ⟨setAL (setAL (setAL (setAL reg
          "moleculer_all_req_total" (some (.counter n1 h1 (v1 + 1))))
          "moleculer_req_total" (some (.counterVec n2 h2 ln2
            (updFn f2 (traceLabels p) (f2 (traceLabels p) + 1)))))
          "moleculer_all_req_duration_ms" (some (.histogram n3 h3 b3
            (obs3 ++ [p.duration]))))
          "moleculer_req_duration_ms" (some (.histogramVec n4 h4 ln4 b4
            (updFn f4 (traceLabels p) (f4 (traceLabels p) ++ [p.duration])))),
        ?_, ?_, ?_, ?_, ?_, ?_, ?_, ?_⟩
      · simp only [traceSpanFinished, herr, lookupAL_setAL, e1, e2, e3, e4,
          asCounter, asCounterVec, asHistogram, asHistogramVec,
          Bind.bind, Except.bind]
        simp
      · simp [counterValue, regGet, lookupAL_setAL, Option.bind]
      · simp [counterVecValue, regGet, lookupAL_setAL, Option.bind, updFn]
      · intro l hl
        simp [counterVecValue, regGet, lookupAL_setAL, Option.bind, updFn, hl]
      · simp [histogramObs, regGet, lookupAL_setAL, Option.bind]
      · simp [histogramVecObs, regGet, lookupAL_setAL, Option.bind, updFn]
      · simp [counterValue, regGet, lookupAL_setAL, Option.bind, e5]
      · intro l
        simp [counterVecValue, regGet, lookupAL_setAL, Option.bind, e6]
  | some msg =>
      simp only [herr]
      refine ⟨setAL (setAL (setAL (setAL (setAL (setAL reg
          "moleculer_all_req_total" (some (.counter n1 h1 (v1 + 1))))
          "moleculer_req_total" (some (.counterVec n2 h2 ln2
            (updFn f2 (traceLabels p) (f2 (traceLabels p) + 1)))))
          "moleculer_all_req_duration_ms" (some (.histogram n3 h3 b3
            (obs3 ++ [p.duration]))))
          "moleculer_req_duration_ms" (some (.histogramVec n4 h4 ln4 b4
            (updFn f4 (traceLabels p) (f4 (traceLabels p) ++ [p.duration])))))
          "moleculer_all_req_errors_total" (some (.counter n5 h5 (v5 + 1))))
          "moleculer_req_errors_total" (some (.counterVec n6 h6 ln6
            (updFn f6 (traceErrorLabels p msg)
              (f6 (traceErrorLabels p msg) + 1)))),
        ?_, ?_, ?_, ?_, ?_, ?_, ?_, ?_⟩
      · simp only [traceSpanFinished, herr, lookupAL_setAL, e1, e2, e3, e4, e5, e6,
          asCounter, asCounterVec, asHistogram, asHistogramVec,
          Bind.bind, Except.bind]
        simp
      · simp [counterValue, regGet, lookupAL_setAL, Option.bind]
      · simp [counterVecValue, regGet, lookupAL_setAL, Option.bind, updFn]
      · intro l hl
        simp [counterVecValue, regGet, lookupAL_setAL, Option.bind, updFn, hl]
      · simp [histogramObs, regGet, lookupAL_setAL, Option.bind]
      · simp [histogramVecObs, regGet, lookupAL_setAL, Option.bind, updFn]
      · simp [counterValue, regGet, lookupAL_setAL, Option.bind]
      · simp [counterVecValue, regGet, lookupAL_setAL, Option.bind, updFn]

/-- C2: for every topology-update invocation over a fully gathered
snapshot, against a registry holding the eight topology collectors
with their configured kinds, the gauge-update section sets the four
scalar gauges to the lengths of the node, service, action and event
result lists, sets `moleculer_nodes` at each node's
(nodeID, type, version, langVersion) label set to 1 if the node is
available and 0 otherwise, and sets the three endpoint gauges at each
record's label set to that record's endpoint count (assuming each list
carries pairwise distinct label sets, as distinct registry entities
do). -/
theorem updateCommonValues_sets_gauges (reg : Registry) (snap : TopologySnapshot)
    (n1 h1 : String) (v1 : Rat)
    (n2 h2 : String) (ln2 : List String) (f2 : Labels → Rat)
    (n3 h3 : String) (v3 : Rat)
    (n4 h4 : String) (ln4 : List String) (f4 : Labels → Rat)
    (n5 h5 : String) (v5 : Rat)
    (n6 h6 : String) (ln6 : List String) (f6 : Labels → Rat)
    (n7 h7 : String) (v7 : Rat)
    (n8 h8 : String) (ln8 : List String) (f8 : Labels → Rat)
    (e1 : lookupAL reg "moleculer_nodes_total" = some (some (.gauge n1 h1 v1)))
    (e2 : lookupAL reg "moleculer_nodes" = some (some (.gaugeVec n2 h2 ln2 f2)))
    (e3 : lookupAL reg "moleculer_services_total" = some (some (.gauge n3 h3 v3)))
    (e4 : lookupAL reg "moleculer_service_endpoints_total" =
      some (some (.gaugeVec n4 h4 ln4 f4)))
    (e5 : lookupAL reg "moleculer_actions_total" = some (some (.gauge n5 h5 v5)))
    (e6 : lookupAL reg "moleculer_action_endpoints_total" =
      some (some (.gaugeVec n6 h6 ln6 f6)))
    (e7 : lookupAL reg "moleculer_events_total" = some (some (.gauge n7 h7 v7)))
    (e8 : lookupAL reg "moleculer_event_endpoints_total" =
      some (some (.gaugeVec n8 h8 ln8 f8)))
    (hpn : snap.nodes.Pairwise (fun a b => nodeLabels a ≠ nodeLabels b))
    (hps : snap.services.Pairwise (fun a b => serviceLabels a ≠ serviceLabels b))
    (hpa : snap.actions.Pairwise (fun a b => actionLabels a ≠ actionLabels b))
    (hpe : snap.events.Pairwise (fun a b => eventLabels a ≠ eventLabels b)) :
    ∃ reg', updateCommonValues reg snap = .ok reg' ∧
      gaugeValue reg' "moleculer_nodes_total" = some (snap.nodes.length : Rat) ∧
      gaugeValue reg' "moleculer_services_total" = some (snap.services.length : Rat) ∧
      gaugeValue reg' "moleculer_actions_total" = some (snap.actions.length : Rat) ∧
      gaugeValue reg' "moleculer_events_total" = some (snap.events.length : Rat) ∧
      (∀ nd ∈ snap.nodes,
        gaugeVecValue reg' "moleculer_nodes" (nodeLabels nd) = some (nodeValue nd)) ∧
      (∀ s ∈ snap.services,
        gaugeVecValue reg' "moleculer_service_endpoints_total" (serviceLabels s) =
          some (s.endpoints.length : Rat)) ∧
      (∀ a ∈ snap.actions,
        gaugeVecValue reg' "moleculer_action_endpoints_total" (actionLabels a) =
          some (a.endpoints.length : Rat)) ∧
      (∀ ev ∈ snap.events,
        gaugeVecValue reg' "moleculer_event_endpoints_total" (eventLabels ev) =
          some (ev.endpoints.length : Rat)) := by
  refine ⟨topoPost reg snap n1 h1 n2 h2 ln2 f2 n3 h3 n4 h4 ln4 f4
      n5 h5 n6 h6 ln6 f6 n7 h7 n8 h8 ln8 f8,
    updateCommonValues_run reg snap n1 h1 v1 n2 h2 ln2 f2 n3 h3 v3 n4 h4 ln4 f4
      n5 h5 v5 n6 h6 ln6 f6 n7 h7 v7 n8 h8 ln8 f8 e1 e2 e3 e4 e5 e6 e7 e8,
    ?_, ?_, ?_, ?_, ?_, ?_, ?_, ?_⟩
  · simp [topoPost, gaugeValue, regGet, lookupAL_setAL, Option.bind]
  · simp [topoPost, gaugeValue, regGet, lookupAL_setAL, Option.bind]
  · simp [topoPost, gaugeValue, regGet, lookupAL_setAL, Option.bind]
  · simp [topoPost, gaugeValue, regGet, lookupAL_setAL, Option.bind]
  · intro nd hnd
    simp only [topoPost, gaugeVecValue, regGet, lookupAL_setAL, Option.bind]
    simp only [reduceIte]
    exact congrArg some (foldSet_pairwise_mem nodeLabels nodeValue f2 snap.nodes hpn nd hnd)
  · intro s hs
    simp only [topoPost, gaugeVecValue, regGet, lookupAL_setAL, Option.bind]
    simp only [reduceIte]
    exact congrArg some (foldSet_pairwise_mem serviceLabels
      (fun s => (s.endpoints.length : Rat)) f4 snap.services hps s hs)
  · intro a ha
    simp only [topoPost, gaugeVecValue, regGet, lookupAL_setAL, Option.bind]
    simp only [reduceIte]
    exact congrArg some (foldSet_pairwise_mem actionLabels
      (fun a => (a.endpoints.length : Rat)) f6 snap.actions hpa a ha)
  · intro ev hev
    simp only [topoPost, gaugeVecValue, regGet, lookupAL_setAL, Option.bind]
    simp only [reduceIte]
    exact congrArg some (foldSet_pairwise_mem eventLabels
      (fun e => (e.endpoints.length : Rat)) f8 snap.events hpe ev hev)

/-- C9: running the gauge-update section twice with an unchanged
topology snapshot is idempotent — the second run maps the registry
produced by the first run to itself, because every update is a `Set`
(never an increment); and label sets absent from the snapshot (for
example those of removed nodes, services, actions or events) are not
cleared: they keep exactly the value they had before the run. -/
theorem updateCommonValues_idempotent (reg : Registry) (snap : TopologySnapshot)
    (n1 h1 : String) (v1 : Rat)
    (n2 h2 : String) (ln2 : List String) (f2 : Labels → Rat)
    (n3 h3 : String) (v3 : Rat)
    (n4 h4 : String) (ln4 : List String) (f4 : Labels → Rat)
    (n5 h5 : String) (v5 : Rat)
    (n6 h6 : String) (ln6 : List String) (f6 : Labels → Rat)
    (n7 h7 : String) (v7 : Rat)
    (n8 h8 : String) (ln8 : List String) (f8 : Labels → Rat)
    (e1 : lookupAL reg "moleculer_nodes_total" = some (some (.gauge n1 h1 v1)))
    (e2 : lookupAL reg "moleculer_nodes" = some (some (.gaugeVec n2 h2 ln2 f2)))
    (e3 : lookupAL reg "moleculer_services_total" = some (some (.gauge n3 h3 v3)))
    (e4 : lookupAL reg "moleculer_service_endpoints_total" =
      some (some (.gaugeVec n4 h4 ln4 f4)))
    (e5 : lookupAL reg "moleculer_actions_total" = some (some (.gauge n5 h5 v5)))
    (e6 : lookupAL reg "moleculer_action_endpoints_total" =
      some (some (.gaugeVec n6 h6 ln6 f6)))
    (e7 : lookupAL reg "moleculer_events_total" = some (some (.gauge n7 h7 v7)))
    (e8 : lookupAL reg "moleculer_event_endpoints_total" =
      some (some (.gaugeVec n8 h8 ln8 f8))) :
    ∃ reg', updateCommonValues reg snap = .ok reg' ∧
      updateCommonValues reg' snap = .ok reg' ∧
      (∀ l, (∀ nd ∈ snap.nodes, nodeLabels nd ≠ l) →
        gaugeVecValue reg' "moleculer_nodes" l =
          gaugeVecValue reg "moleculer_nodes" l) ∧
      (∀ l, (∀ s ∈ snap.services, serviceLabels s ≠ l) →
        gaugeVecValue reg' "moleculer_service_endpoints_total" l =
          gaugeVecValue reg "moleculer_service_endpoints_total" l) ∧
      (∀ l, (∀ a ∈ snap.actions, actionLabels a ≠ l) →
        gaugeVecValue reg' "moleculer_action_endpoints_total" l =
          gaugeVecValue reg "moleculer_action_endpoints_total" l) ∧
      (∀ l, (∀ ev ∈ snap.events, eventLabels ev ≠ l) →
        gaugeVecValue reg' "moleculer_event_endpoints_total" l =
          gaugeVecValue reg "moleculer_event_endpoints_total" l) := by
  refine ⟨topoPost reg snap n1 h1 n2 h2 ln2 f2 n3 h3 n4 h4 ln4 f4
      n5 h5 n6 h6 ln6 f6 n7 h7 n8 h8 ln8 f8,
    updateCommonValues_run reg snap n1 h1 v1 n2 h2 ln2 f2 n3 h3 v3 n4 h4 ln4 f4
      n5 h5 v5 n6 h6 ln6 f6 n7 h7 v7 n8 h8 ln8 f8 e1 e2 e3 e4 e5 e6 e7 e8,
    ?_, ?_, ?_, ?_, ?_⟩
  · set RT := topoPost reg snap n1 h1 n2 h2 ln2 f2 n3 h3 n4 h4 ln4 f4
      n5 h5 n6 h6 ln6 f6 n7 h7 n8 h8 ln8 f8 with hRT
    have e1' : lookupAL RT "moleculer_nodes_total" =
        some (some (.gauge n1 h1 (snap.nodes.length : Rat))) := by
      rw [hRT]; simp [topoPost, lookupAL_setAL]
    have e2' : lookupAL RT "moleculer_nodes" =
        some (some (.gaugeVec n2 h2 ln2 (foldSet nodeLabels nodeValue f2 snap.nodes))) := by
      rw [hRT]; simp [topoPost, lookupAL_setAL]
    have e3' : lookupAL RT "moleculer_services_total" =
        some (some (.gauge n3 h3 (snap.services.length : Rat))) := by
      rw [hRT]; simp [topoPost, lookupAL_setAL]
    have e4' : lookupAL RT "moleculer_service_endpoints_total" =
        some (some (.gaugeVec n4 h4 ln4
          (foldSet serviceLabels (fun s => (s.endpoints.length : Rat)) f4 snap.services))) := by
      rw [hRT]; simp [topoPost, lookupAL_setAL]
    have e5' : lookupAL RT "moleculer_actions_total" =
        some (some (.gauge n5 h5 (snap.actions.length : Rat))) := by
      rw [hRT]; simp [topoPost, lookupAL_setAL]
    have e6' : lookupAL RT "moleculer_action_endpoints_total" =
        some (some (.gaugeVec n6 h6 ln6
          (foldSet actionLabels (fun a => (a.endpoints.length : Rat)) f6 snap.actions))) := by
      rw [hRT]; simp [topoPost, lookupAL_setAL]
    have e7' : lookupAL RT "moleculer_events_total" =
        some (some (.gauge n7 h7 (snap.events.length : Rat))) := by
      rw [hRT]; simp [topoPost, lookupAL_setAL]
    have e8' : lookupAL RT "moleculer_event_endpoints_total" =
        some (some (.gaugeVec n8 h8 ln8
          (foldSet eventLabels (fun e => (e.endpoints.length : Rat)) f8 snap.events))) := by
      rw [hRT]; simp [topoPost, lookupAL_setAL]
    have hrun2 := updateCommonValues_run RT snap
      n1 h1 (snap.nodes.length : Rat)
      n2 h2 ln2 (foldSet nodeLabels nodeValue f2 snap.nodes)
      n3 h3 (snap.services.length : Rat)
      n4 h4 ln4 (foldSet serviceLabels (fun s => (s.endpoints.length : Rat)) f4 snap.services)
      n5 h5 (snap.actions.length : Rat)
      n6 h6 ln6 (foldSet actionLabels (fun a => (a.endpoints.length : Rat)) f6 snap.actions)
      n7 h7 (snap.events.length : Rat)
      n8 h8 ln8 (foldSet eventLabels (fun e => (e.endpoints.length : Rat)) f8 snap.events)
      e1' e2' e3' e4' e5' e6' e7' e8'
    rw [hrun2]
    refine congrArg Except.ok ?_
    simp only [topoPost, foldSet_idem]
    rw [setAL_of_lookup_eq _ _ _ e1']
    rw [setAL_of_lookup_eq _ _ _ e2']
    rw [setAL_of_lookup_eq _ _ _ e3']
    rw [setAL_of_lookup_eq _ _ _ e4']
    rw [setAL_of_lookup_eq _ _ _ e5']
    rw [setAL_of_lookup_eq _ _ _ e6']
    rw [setAL_of_lookup_eq _ _ _ e7']
    rw [setAL_of_lookup_eq _ _ _ e8']
  · intro l hl
    have hfs := foldSet_not_mem nodeLabels nodeValue f2 snap.nodes l hl
    simp [topoPost, gaugeVecValue, regGet, lookupAL_setAL, Option.bind, e2, hfs]
  · intro l hl
    have hfs := foldSet_not_mem serviceLabels (fun s => (s.endpoints.length : Rat))
      f4 snap.services l hl
    simp [topoPost, gaugeVecValue, regGet, lookupAL_setAL, Option.bind, e4, hfs]
  · intro l hl
    have hfs := foldSet_not_mem actionLabels (fun a => (a.endpoints.length : Rat))
      f6 snap.actions l hl
    simp [topoPost, gaugeVecValue, regGet, lookupAL_setAL, Option.bind, e6, hfs]
  · intro l hl
    have hfs := foldSet_not_mem eventLabels (fun e => (e.endpoints.length : Rat))
      f8 snap.events l hl
    simp [topoPost, gaugeVecValue, regGet, lookupAL_setAL, Option.bind, e8, hfs]

/-- C3: initializing from a sequence of metric specs with unique names
(each with a recognized kind and a `help` string) builds one collector
per spec and stores it in the registry under the spec's name, and
afterwards the lookup `collectors[name]` yields a live collector for
exactly the configured names and nothing for every other name. -/
theorem createMetrics_get_iff (ms : List (String × GoMap))
    (hnd : (ms.map Prod.fst).Nodup)
    (hv : ∀ pr ∈ ms, validSpec pr.2 = true) :
    ∃ reg, createMetrics
        [("metrics", GoVal.dict (ms.map fun pr => (pr.1, GoVal.dict pr.2)))] =
        .ok (reg, true) ∧
      (∀ pr ∈ ms, ∃ c, collectorFromType pr.1 pr.2 = .ok (some c) ∧
        regGet reg pr.1 = some c) ∧
      (∀ name, (regGet reg name).isSome ↔ name ∈ ms.map Prod.fst) := by
  obtain ⟨reg, hrun, hiff, hpres, hspec⟩ := buildCollectors_spec ms [] hv
  refine ⟨reg, ?_, hspec hnd, ?_⟩
  · simp [createMetrics, lookupAL, hrun, Except.map]
  · intro name
    simpa [regGet, lookupAL] using hiff name

/-- Witness for C1 at the concrete registry and event. -/
theorem traceSpanFinished_updates_witness :
    lookupAL traceReg "moleculer_all_req_total" =
      some (some (.counter "a" "b" 3)) ∧
    lookupAL traceReg "moleculer_req_total" =
      some (some (.counterVec "c" "d" ["action", "service", "nodeID"] (fun _ => 1))) ∧
    (∃ reg', traceSpanFinished traceReg traceEvent = .ok reg' ∧
      counterValue reg' "moleculer_all_req_total" = some 4 ∧
      counterVecValue reg' "moleculer_req_total" (traceLabels traceEvent) = some 2 ∧
      (∀ l, l ≠ traceLabels traceEvent →
        counterVecValue reg' "moleculer_req_total" l = some 1) ∧
      histogramObs reg' "moleculer_all_req_duration_ms" = some [2, 12.5] ∧
      histogramVecObs reg' "moleculer_req_duration_ms" (traceLabels traceEvent) =
        some [12.5] ∧
      counterValue reg' "moleculer_all_req_errors_total" = some 1 ∧
      counterVecValue reg' "moleculer_req_errors_total"
        (traceErrorLabels traceEvent "boom") = some 1) :=
  ⟨rfl, rfl,
   traceSpanFinished_updates traceReg traceEvent
     _ _ _ _ _ _ _ _ _ _ _ _ _ _ _ _ _ _ _ _ _ _ _
     rfl rfl rfl rfl rfl rfl⟩

/-- Witness for C2 at the concrete registry and snapshot (the spec's
own example: two nodes, one service with three endpoints, zero
actions, one event with two endpoints). -/
theorem updateCommonValues_sets_gauges_witness :
    lookupAL topoReg "moleculer_nodes_total" = some (some (.gauge "a" "b" 0)) ∧
    lookupAL topoReg "moleculer_nodes" =
      some (some (.gaugeVec "c" "d" ["nodeID", "type", "version", "langVersion"]
        (fun _ => 0))) ∧
    topoSnap.nodes.Pairwise (fun a b => nodeLabels a ≠ nodeLabels b) ∧
    topoSnap.services.Pairwise (fun a b => serviceLabels a ≠ serviceLabels b) ∧
    topoSnap.actions.Pairwise (fun a b => actionLabels a ≠ actionLabels b) ∧
    topoSnap.events.Pairwise (fun a b => eventLabels a ≠ eventLabels b) ∧
    (∃ reg', updateCommonValues topoReg topoSnap = .ok reg' ∧
      gaugeValue reg' "moleculer_nodes_total" = some (topoSnap.nodes.length : Rat) ∧
      gaugeValue reg' "moleculer_services_total" = some (topoSnap.services.length : Rat) ∧
      gaugeValue reg' "moleculer_actions_total" = some (topoSnap.actions.length : Rat) ∧
      gaugeValue reg' "moleculer_events_total" = some (topoSnap.events.length : Rat) ∧
      (∀ nd ∈ topoSnap.nodes,
        gaugeVecValue reg' "moleculer_nodes" (nodeLabels nd) = some (nodeValue nd)) ∧
      (∀ s ∈ topoSnap.services,
        gaugeVecValue reg' "moleculer_service_endpoints_total" (serviceLabels s) =
          some (s.endpoints.length : Rat)) ∧
      (∀ a ∈ topoSnap.actions,
        gaugeVecValue reg' "moleculer_action_endpoints_total" (actionLabels a) =
          some (a.endpoints.length : Rat)) ∧
      (∀ ev ∈ topoSnap.events,
        gaugeVecValue reg' "moleculer_event_endpoints_total" (eventLabels ev) =
          some (ev.endpoints.length : Rat))) :=
  ⟨rfl, rfl, by decide, by decide, by decide, by decide,
   updateCommonValues_sets_gauges topoReg topoSnap
     _ _ _ _ _ _ _ _ _ _ _ _ _ _ _ _ _ _ _ _ _ _ _ _ _ _ _ _
     rfl rfl rfl rfl rfl rfl rfl rfl
     (by decide) (by decide) (by decide) (by decide)⟩

/-- Witness for C9 at the concrete registry and snapshot. -/
theorem updateCommonValues_idempotent_witness :
    lookupAL topoReg "moleculer_nodes" =
      some (some (.gaugeVec "c" "d" ["nodeID", "type", "version", "langVersion"]
        (fun _ => 0))) ∧
    (∃ reg', updateCommonValues topoReg topoSnap = .ok reg' ∧
      updateCommonValues reg' topoSnap = .ok reg' ∧
      (∀ l, (∀ nd ∈ topoSnap.nodes, nodeLabels nd ≠ l) →
        gaugeVecValue reg' "moleculer_nodes" l =
          gaugeVecValue topoReg "moleculer_nodes" l) ∧
      (∀ l, (∀ s ∈ topoSnap.services, serviceLabels s ≠ l) →
        gaugeVecValue reg' "moleculer_service_endpoints_total" l =
          gaugeVecValue topoReg "moleculer_service_endpoints_total" l) ∧
      (∀ l, (∀ a ∈ topoSnap.actions, actionLabels a ≠ l) →
        gaugeVecValue reg' "moleculer_action_endpoints_total" l =
          gaugeVecValue topoReg "moleculer_action_endpoints_total" l) ∧
      (∀ l, (∀ ev ∈ topoSnap.events, eventLabels ev ≠ l) →
        gaugeVecValue reg' "moleculer_event_endpoints_total" l =
          gaugeVecValue topoReg "moleculer_event_endpoints_total" l)) :=
  ⟨rfl,
   updateCommonValues_idempotent topoReg topoSnap
     _ _ _ _ _ _ _ _ _ _ _ _ _ _ _ _ _ _ _ _ _ _ _ _ _ _ _ _
     rfl rfl rfl rfl rfl rfl rfl rfl⟩

/-- Witness for C3 at the concrete two-spec configuration. -/
theorem createMetrics_get_iff_witness :
    (sampleSpecs.map Prod.fst).Nodup ∧
    (∀ pr ∈ sampleSpecs, validSpec pr.2 = true) ∧
    (∃ reg, createMetrics
        [("metrics", GoVal.dict (sampleSpecs.map fun pr => (pr.1, GoVal.dict pr.2)))] =
        .ok (reg, true) ∧
      (∀ pr ∈ sampleSpecs, ∃ c, collectorFromType pr.1 pr.2 = .ok (some c) ∧
        regGet reg pr.1 = some c) ∧
      (∀ name, (regGet reg name).isSome ↔ name ∈ sampleSpecs.map Prod.fst)) :=
  ⟨by decide, by decide, createMetrics_get_iff sampleSpecs (by decide) (by decide)⟩

end MoleculerGoMetrics
